import Mathlib

/-!
Shallow embedding of the alias-directory / room-list servlets
(`synapse/rest/client/v1/directory.py`) and of the account-validity
configuration loader (`synapse/config/account_validity.py`).

The transport layer, token validation and the storage backends are
external collaborators: they enter the embedding as parameters
(`get_room`, `get_user_by_req`, `get_appservice_by_req`, `load_module`,
`parse_duration`, `public_baseurl`).  Each handler is a pure function of
those parameters returning either a typed error or the HTTP status
together with the directory-handler call it performed (the "effect").
-/

namespace Synapse

/-- Error codes from `synapse.api.errors.Codes` (only those the embedded
code mentions). `SynapseError` defaults to `UNKNOWN`, `NotFoundError`
carries `NOT_FOUND`, `AuthError` carries `FORBIDDEN`. -/
inductive ErrCode where
  | UNKNOWN
  | BAD_JSON
  | NOT_FOUND
  | FORBIDDEN
  deriving Repr, DecidableEq

/-- `synapse.api.errors.SynapseError`: HTTP status code, message, errcode. -/
structure SynapseError where
  code : Nat
  msg : String
  errcode : ErrCode
  deriving Repr, DecidableEq

/-- `SynapseError(code, msg)` with the default errcode `Codes.UNKNOWN`. -/
def SynapseError.mk' (code : Nat) (msg : String) : SynapseError :=
  ⟨code, msg, ErrCode.UNKNOWN⟩

/-- `NotFoundError(msg)`: HTTP 404 with errcode `M_NOT_FOUND`. -/
def NotFoundError (msg : String) : SynapseError :=
  ⟨404, msg, ErrCode.NOT_FOUND⟩

/-- `AuthError(code, msg)`: errcode `M_FORBIDDEN`. -/
def AuthError (code : Nat) (msg : String) : SynapseError :=
  ⟨code, msg, ErrCode.FORBIDDEN⟩

/-- An appservice identity, as exposed on `requester.app_service`. -/
structure Appservice where
  id : String
  deriving Repr, DecidableEq

/-- The requester produced by `auth.get_user_by_req`. -/
structure Requester where
  user : String
  app_service : Option Appservice
  deriving Repr, DecidableEq

/-- A row of the room store, as returned by `store.get_room`. -/
structure Room where
  is_public : Bool
  deriving Repr, DecidableEq

/-- Result of `auth.get_appservice_by_req`: either a verified appservice,
an `InvalidClientCredentialsError` (the only class the servlet catches),
or some other propagating error. -/
inductive ASAuthResult where
  | ok (service : Appservice)
  | invalidCreds
  | otherError (e : SynapseError)
  deriving Repr, DecidableEq

/-- The call a servlet makes into the directory handler. -/
inductive DirEffect where
  | createAssociation (requester : Requester) (roomAlias : String)
      (roomId : String) (servers : Option (List String))
  | deleteAssociation (requester : Requester) (roomAlias : String)
  | deleteAppserviceAssociation (service : Appservice) (roomAlias : String)
  | editPublishedRoomList (requester : Requester) (roomId : String)
      (visibility : String)
  | editPublishedAppserviceRoomList (appserviceId : String)
      (networkId : String) (roomId : String) (visibility : String)
  deriving Repr, DecidableEq

/-- Parsed JSON body of a `PUT /directory/room/{roomAlias}` request:
the handler reads only the `room_id` and `servers` keys. -/
structure PutAliasBody where
  room_id : Option String
  servers : Option (List String)
  deriving Repr, DecidableEq

/-- Parsed JSON body of the list-edit `PUT`s: only `visibility` is read. -/
structure PutListBody where
  visibility : Option String
  deriving Repr, DecidableEq

/-- `ClientDirectoryServer.on_PUT`: parse body, require `room_id`, check
the room exists in the store, then authenticate and create the
association. -/
def ClientDirectoryServer.on_PUT
    (get_room : String → Option Room)
    (get_user_by_req : Except SynapseError Requester)
    (roomAlias : String) (content : PutAliasBody) :
    Except SynapseError (Nat × DirEffect) :=
  match content.room_id with
  | none => Except.error ⟨400, "Missing params: [\"room_id\"]", ErrCode.BAD_JSON⟩
  | some room_id =>
    match get_room room_id with
    | none => Except.error (SynapseError.mk' 400 "Room does not exist")
    | some _ =>
      match get_user_by_req with
      | Except.error e => Except.error e
      | Except.ok requester =>
          Except.ok (200,
            DirEffect.createAssociation requester roomAlias room_id content.servers)

/-- `ClientDirectoryServer.on_DELETE`: try the appservice path; on
`InvalidClientCredentialsError` fall back to the ordinary user path. -/
def ClientDirectoryServer.on_DELETE
    (get_appservice_by_req : ASAuthResult)
    (get_user_by_req : Except SynapseError Requester)
    (roomAlias : String) :
    Except SynapseError (Nat × DirEffect) :=
  match get_appservice_by_req with
  | ASAuthResult.ok service =>
      Except.ok (200, DirEffect.deleteAppserviceAssociation service roomAlias)
  | ASAuthResult.otherError e => Except.error e
  | ASAuthResult.invalidCreds =>
      match get_user_by_req with
      | Except.error e => Except.error e
      | Except.ok requester =>
          Except.ok (200, DirEffect.deleteAssociation requester roomAlias)

/-- `ClientDirectoryListServer.on_GET`: visibility of a room in the global
list, from the room row of the store. -/
def ClientDirectoryListServer.on_GET
    (get_room : String → Option Room) (room_id : String) :
    Except SynapseError (Nat × String) :=
  match get_room room_id with
  | none => Except.error (NotFoundError "Unknown room")
  | some room =>
      Except.ok (200, if room.is_public then "public" else "private")

/-- `ClientDirectoryListServer.on_PUT`: authenticate, read `visibility`
(defaulting to `"public"`), edit the global published room list. -/
def ClientDirectoryListServer.on_PUT
    (get_user_by_req : Except SynapseError Requester)
    (room_id : String) (content : PutListBody) :
    Except SynapseError (Nat × DirEffect) :=
  match get_user_by_req with
  | Except.error e => Except.error e
  | Except.ok requester =>
      Except.ok (200,
        DirEffect.editPublishedRoomList requester room_id
          (content.visibility.getD "public"))

/-- `ClientDirectoryListServer.on_DELETE`: authenticate, edit the global
published room list with visibility `"private"`. -/
def ClientDirectoryListServer.on_DELETE
    (get_user_by_req : Except SynapseError Requester)
    (room_id : String) :
    Except SynapseError (Nat × DirEffect) :=
  match get_user_by_req with
  | Except.error e => Except.error e
  | Except.ok requester =>
      Except.ok (200, DirEffect.editPublishedRoomList requester room_id "private")

/-- `ClientAppserviceDirectoryListServer._edit_appservice_room_visibility`:
authenticate, then decide the appservice id by precedence (appservice
credential, else admin delisting, else deny) and edit the appservice
published room list. `is_server_admin` models `auth.is_server_admin`,
applied to `requester.user`. -/
def edit_appservice_room_visibility
    (get_user_by_req : Except SynapseError Requester)
    (is_server_admin : String → Bool)
    (network_id room_id visibility : String) :
    Except SynapseError (Nat × DirEffect) :=
  match get_user_by_req with
  | Except.error e => Except.error e
  | Except.ok requester =>
    match requester.app_service with
    | some svc =>
        Except.ok (200,
          DirEffect.editPublishedAppserviceRoomList svc.id network_id room_id
            visibility)
    | none =>
        if is_server_admin requester.user ∧ visibility = "private" then
          Except.ok (200,
            DirEffect.editPublishedAppserviceRoomList "" network_id room_id
              visibility)
        else
          Except.error
            (AuthError 403
              "Only appservices can edit the appservice published room list")

/-- `ClientAppserviceDirectoryListServer.on_PUT`: read `visibility`
(defaulting to `"public"`) and delegate to the edit operation. -/
def ClientAppserviceDirectoryListServer.on_PUT
    (get_user_by_req : Except SynapseError Requester)
    (is_server_admin : String → Bool)
    (network_id room_id : String) (content : PutListBody) :
    Except SynapseError (Nat × DirEffect) :=
  edit_appservice_room_visibility get_user_by_req is_server_admin
    network_id room_id (content.visibility.getD "public")

/-- `ClientAppserviceDirectoryListServer.on_DELETE`: delegate to the edit
operation with visibility `"private"`. -/
def ClientAppserviceDirectoryListServer.on_DELETE
    (get_user_by_req : Except SynapseError Requester)
    (is_server_admin : String → Bool)
    (network_id room_id : String) :
    Except SynapseError (Nat × DirEffect) :=
  edit_appservice_room_visibility get_user_by_req is_server_admin
    network_id room_id "private"

/-- A YAML/JSON configuration value, as far as the account-validity
loader inspects it (`isinstance` checks, key lookups, truthiness). -/
inductive CVal where
  | vnull
  | vbool (b : Bool)
  | vint (n : Int)
  | vstr (s : String)
  | vdict (entries : List (String × CVal))
  | vlist (xs : List CVal)

/-- Python truthiness of a configuration value. -/
def CVal.truthy : CVal → Bool
  | CVal.vnull => false
  | CVal.vbool b => b
  | CVal.vint n => n != 0
  | CVal.vstr s => s != ""
  | CVal.vdict d => !d.isEmpty
  | CVal.vlist xs => !xs.isEmpty

/-- `isinstance(v, dict)`. -/
def CVal.isDict : CVal → Bool
  | CVal.vdict _ => true
  | _ => false

/-- `isinstance(v, list)`. -/
def CVal.isList : CVal → Bool
  | CVal.vlist _ => true
  | _ => false

/-- `d.get(k)` on a mapping. -/
def lookupKey (d : List (String × CVal)) (k : String) : Option CVal :=
  (d.find? (fun p => p.1 == k)).map (fun p => p.2)

/-- `k in d` on a mapping. -/
def containsKey (d : List (String × CVal)) (k : String) : Bool :=
  d.any (fun p => p.1 == k)

/-- `synapse.config._base.ConfigError`: a message and an optional config
path (e.g. `("account_validity", "<item 0>")`). -/
structure ConfigError where
  msg : String
  path : Option (List String)
  deriving Repr, DecidableEq

/-- The attributes `AccountValidityConfig.read_config` sets.  `Option`
fields model attributes that are only assigned on some paths; `α` is the
type the external module loader produces. `account_validity_enabled`
keeps the raw configured value, as the source does; downstream code
branches on its truthiness. -/
structure AccountValidityState (α : Type) where
  account_validity_enabled : CVal
  account_validity_renew_by_email_enabled : Bool
  account_validity_period : Option Int
  account_validity_renew_at : Option Int
  account_validity_renew_email_subject : Option CVal
  account_validity_startup_job_max_delta : Option Rat
  account_validity_modules : List α

/-- The state `read_config` starts from: legacy account validity
disabled, no modules. -/
def initialState (α : Type) : AccountValidityState α :=
  ⟨CVal.vbool false, false, none, none, none, none, []⟩

/-- The `if self.account_validity_enabled:` block of
`read_legacy_config`: reads `period` (required), `renew_at`,
`renew_email_subject` (defaulted) and computes the startup-job delta
(`period * 10.0 / 100.0`). -/
def legacy_enabled_block (parse_duration : CVal → Int)
    (cfg : List (String × CVal)) :
    Except ConfigError (Option Int × Option Int × Option CVal × Option Rat) :=
  if (((lookupKey cfg "enabled").getD (CVal.vbool false)).truthy) then
    match lookupKey cfg "period" with
    | none =>
        Except.error
          ⟨"\x27period\x27 is required when using account validity", none⟩
    | some p =>
        Except.ok (some (parse_duration p),
          (lookupKey cfg "renew_at").map parse_duration,
          some ((lookupKey cfg "renew_email_subject").getD
            (CVal.vstr "Renew your %(app)s account")),
          some ((parse_duration p : Rat) * 10 / 100))
  else
    Except.ok (none, none, none, none)

/-- `AccountValidityConfig.read_legacy_config`: the legacy mapping shape.
`parse_duration` and `public_baseurl` are inherited from the `Config`
base class (external); `if not self.public_baseurl` is Python falsiness,
i.e. the base URL is unset or the empty string. -/
def read_legacy_config {α : Type} (parse_duration : CVal → Int)
    (public_baseurl : Option String) (cfg : List (String × CVal)) :
    Except ConfigError (AccountValidityState α) :=
  match legacy_enabled_block parse_duration cfg with
  | Except.error e => Except.error e
  | Except.ok (period, renew_at, subject, delta) =>
      if containsKey cfg "renew_at" ∧ (public_baseurl.getD "") = "" then
        Except.error
          ⟨"Can\x27t send renewal emails without \x27public_baseurl\x27", none⟩
      else
        Except.ok ⟨(lookupKey cfg "enabled").getD (CVal.vbool false),
          containsKey cfg "renew_at", period, renew_at, subject, delta, []⟩

/-- The config path `("account_validity", "<item %i>" % i)`. -/
def itemPath (i : Nat) : List String :=
  ["account_validity", "<item " ++ toString i ++ ">"]

/-- The module-list branch of `read_config`: each element must be a
mapping, and is passed to the external `load_module` with its path. -/
def load_module_list {α : Type}
    (load_module : List (String × CVal) → List String → α) :
    List CVal → Nat → Except ConfigError (List α)
  | [], _ => Except.ok []
  | x :: rest, i =>
    match x with
    | CVal.vdict d =>
        (load_module_list load_module rest (i + 1)).map
          (fun ms => load_module d (itemPath i) :: ms)
    | _ => Except.error ⟨"expected a mapping", some (itemPath i)⟩

/-- `AccountValidityConfig.read_config`, dispatching on the runtime shape
of `config.get("account_validity")`. -/
def read_config {α : Type}
    (load_module : List (String × CVal) → List String → α)
    (parse_duration : CVal → Int) (public_baseurl : Option String)
    (account_validity_config : Option CVal) :
    Except ConfigError (AccountValidityState α) :=
  match account_validity_config with
  | none => Except.ok (initialState α)
  | some (CVal.vdict d) => read_legacy_config parse_duration public_baseurl d
  | some (CVal.vlist xs) =>
      (load_module_list load_module xs 0).map
        (fun ms => { initialState α with account_validity_modules := ms })
  | some _ => Except.error ⟨"account_validity syntax is incorrect", none⟩

/-! ## Theorems about the directory servlets -/

/-- C1: on the appservice-room-list edit operation (reached by both PUT
and DELETE), the authorization precedence is: an appservice requester
proceeds with its own appservice id; otherwise a server admin requesting
visibility `"private"` proceeds with appservice id `""`; otherwise the
request fails with `AuthError 403` and no edit is performed.  In
particular a server admin without appservice credentials requesting
`"public"` is denied. -/
theorem C1_appservice_list_edit_auth_precedence
    (admin : String → Bool) (req : Requester) (net rid vis : String) :
    (∀ svc, req.app_service = some svc →
      edit_appservice_room_visibility (Except.ok req) admin net rid vis =
        Except.ok (200,
          DirEffect.editPublishedAppserviceRoomList svc.id net rid vis)) ∧
    (req.app_service = none → admin req.user = true → vis = "private" →
      edit_appservice_room_visibility (Except.ok req) admin net rid vis =
        Except.ok (200,
          DirEffect.editPublishedAppserviceRoomList "" net rid vis)) ∧
    (req.app_service = none → ¬(admin req.user = true ∧ vis = "private") →
      edit_appservice_room_visibility (Except.ok req) admin net rid vis =
        Except.error (AuthError 403
          "Only appservices can edit the appservice published room list")) ∧
    (req.app_service = none → admin req.user = true → vis = "public" →
      edit_appservice_room_visibility (Except.ok req) admin net rid vis =
        Except.error (AuthError 403
          "Only appservices can edit the appservice published room list")) := by
  refine ⟨?_, ?_, ?_, ?_⟩
  · intro svc h
    simp [edit_appservice_room_visibility, h]
  · intro h ha hv
    simp [edit_appservice_room_visibility, h, ha, hv]
  · intro h hn
    simp only [edit_appservice_room_visibility, h]
    rw [if_neg hn]
  · intro h ha hv
    simp only [edit_appservice_room_visibility, h]
    rw [if_neg]
    intro hc
    rw [hv] at hc
    exact absurd hc.2 (by decide)

/-- Witness for C1 at concrete inputs: an appservice requester lists a
room, an admin delists with appservice id `""`, an admin asking
`"public"` is denied. -/
theorem C1_appservice_list_edit_auth_precedence_witness :
    edit_appservice_room_visibility
        (Except.ok ⟨"@as:hs", some ⟨"as1"⟩⟩) (fun _ => false) "net" "!r" "public" =
      Except.ok (200,
        DirEffect.editPublishedAppserviceRoomList "as1" "net" "!r" "public") ∧
    edit_appservice_room_visibility
        (Except.ok ⟨"@adm:hs", none⟩) (fun _ => true) "net" "!r" "private" =
      Except.ok (200,
        DirEffect.editPublishedAppserviceRoomList "" "net" "!r" "private") ∧
    edit_appservice_room_visibility
        (Except.ok ⟨"@adm:hs", none⟩) (fun _ => true) "net" "!r" "public" =
      Except.error (AuthError 403
        "Only appservices can edit the appservice published room list") :=
  ⟨(C1_appservice_list_edit_auth_precedence (fun _ => false)
      ⟨"@as:hs", some ⟨"as1"⟩⟩ "net" "!r" "public").1 ⟨"as1"⟩ rfl,
   (C1_appservice_list_edit_auth_precedence (fun _ => true)
      ⟨"@adm:hs", none⟩ "net" "!r" "private").2.1 rfl rfl rfl,
   (C1_appservice_list_edit_auth_precedence (fun _ => true)
      ⟨"@adm:hs", none⟩ "net" "!r" "public").2.2.2 rfl rfl rfl⟩

/-- C2: on alias DELETE, an appservice-credential failure
(`InvalidClientCredentialsError`) is swallowed and the handler falls
through to the ordinary user path (`delete_association` with the
authenticated requester, or that path's own authentication error); a
caller with valid appservice credentials takes the appservice path and
never reaches the user path. -/
theorem C2_delete_alias_fallthrough
    (user_auth : Except SynapseError Requester) (ra : String) :
    (∀ req, user_auth = Except.ok req →
      ClientDirectoryServer.on_DELETE ASAuthResult.invalidCreds user_auth ra =
        Except.ok (200, DirEffect.deleteAssociation req ra)) ∧
    (∀ e, user_auth = Except.error e →
      ClientDirectoryServer.on_DELETE ASAuthResult.invalidCreds user_auth ra =
        Except.error e) ∧
    (∀ svc,
      ClientDirectoryServer.on_DELETE (ASAuthResult.ok svc) user_auth ra =
        Except.ok (200, DirEffect.deleteAppserviceAssociation svc ra)) := by
  refine ⟨?_, ?_, ?_⟩
  · intro req h
    simp [ClientDirectoryServer.on_DELETE, h]
  · intro e h
    simp [ClientDirectoryServer.on_DELETE, h]
  · intro svc
    simp [ClientDirectoryServer.on_DELETE]

/-- Witness for C2 at concrete inputs. -/
theorem C2_delete_alias_fallthrough_witness :
    ClientDirectoryServer.on_DELETE ASAuthResult.invalidCreds
        (Except.ok ⟨"@u:hs", none⟩) "#a:hs" =
      Except.ok (200, DirEffect.deleteAssociation ⟨"@u:hs", none⟩ "#a:hs") ∧
    ClientDirectoryServer.on_DELETE (ASAuthResult.ok ⟨"as1"⟩)
        (Except.ok ⟨"@u:hs", none⟩) "#a:hs" =
      Except.ok (200, DirEffect.deleteAppserviceAssociation ⟨"as1"⟩ "#a:hs") :=
  ⟨(C2_delete_alias_fallthrough (Except.ok ⟨"@u:hs", none⟩) "#a:hs").1
      ⟨"@u:hs", none⟩ rfl,
   (C2_delete_alias_fallthrough (Except.ok ⟨"@u:hs", none⟩) "#a:hs").2.2 ⟨"as1"⟩⟩

/-- C4: alias PUT for a room id absent from the room store fails with
`SynapseError 400 "Room does not exist"`; the association is never
created (the handler never reaches the directory call). -/
theorem C4_create_association_room_must_exist
    (get_room : String → Option Room) (req : Requester)
    (ra rid : String) (servers : Option (List String)) :
    get_room rid = none →
    ClientDirectoryServer.on_PUT get_room (Except.ok req) ra ⟨some rid, servers⟩ =
      Except.error (SynapseError.mk' 400 "Room does not exist") ∧
    ∀ out, ClientDirectoryServer.on_PUT get_room (Except.ok req) ra
        ⟨some rid, servers⟩ ≠ Except.ok out := by
  intro h
  refine ⟨by simp [ClientDirectoryServer.on_PUT, h], ?_⟩
  intro out
  simp [ClientDirectoryServer.on_PUT, h]

/-- Witness for C4 at a concrete input: the empty room store. -/
theorem C4_create_association_room_must_exist_witness :
    ClientDirectoryServer.on_PUT (fun _ => none) (Except.ok ⟨"@u:hs", none⟩)
        "#a:hs" ⟨some "!r:hs", none⟩ =
      Except.error (SynapseError.mk' 400 "Room does not exist") :=
  (C4_create_association_room_must_exist (fun _ => none) ⟨"@u:hs", none⟩
    "#a:hs" "!r:hs" none rfl).1

/-- C5: the global list GET fails with `NotFound` exactly when the room
is absent from the room store, and otherwise reports `"public"` iff the
room's global `is_public` flag is set, `"private"` otherwise.  The
handler consults only the room row of the store (no appservice-network
scope is an input at all). -/
theorem C5_get_visibility_global
    (get_room : String → Option Room) (rid : String) :
    (ClientDirectoryListServer.on_GET get_room rid =
        Except.error (NotFoundError "Unknown room") ↔ get_room rid = none) ∧
    (∀ room, get_room rid = some room →
      ClientDirectoryListServer.on_GET get_room rid =
        Except.ok (200, if room.is_public then "public" else "private")) := by
  refine ⟨⟨fun h => ?_, fun h => by simp [ClientDirectoryListServer.on_GET, h]⟩,
    fun room h => by simp [ClientDirectoryListServer.on_GET, h]⟩
  cases hr : get_room rid with
  | none => rfl
  | some room =>
      rw [ClientDirectoryListServer.on_GET, hr] at h
      exact absurd h (by simp)

/-- Witness for C5 at concrete inputs: absent room, public room,
private room. -/
theorem C5_get_visibility_global_witness :
    ClientDirectoryListServer.on_GET (fun _ => none) "!r:hs" =
      Except.error (NotFoundError "Unknown room") ∧
    ClientDirectoryListServer.on_GET (fun _ => some ⟨true⟩) "!r:hs" =
      Except.ok (200, "public") ∧
    ClientDirectoryListServer.on_GET (fun _ => some ⟨false⟩) "!r:hs" =
      Except.ok (200, "private") :=
  ⟨(C5_get_visibility_global (fun _ => none) "!r:hs").1.mpr rfl,
   (C5_get_visibility_global (fun _ => some ⟨true⟩) "!r:hs").2 ⟨true⟩ rfl,
   (C5_get_visibility_global (fun _ => some ⟨false⟩) "!r:hs").2 ⟨false⟩ rfl⟩

/-- C8: in the alias PUT handler, the room-existence check precedes
authentication: with the room absent, the result is the 400
"Room does not exist" error whatever the authentication outcome is, and
two runs differing only in the authentication outcome agree. -/
theorem C8_room_check_precedes_auth
    (get_room : String → Option Room)
    (auth₁ auth₂ : Except SynapseError Requester)
    (ra rid : String) (servers : Option (List String)) :
    get_room rid = none →
    ClientDirectoryServer.on_PUT get_room auth₁ ra ⟨some rid, servers⟩ =
      Except.error (SynapseError.mk' 400 "Room does not exist") ∧
    ClientDirectoryServer.on_PUT get_room auth₁ ra ⟨some rid, servers⟩ =
      ClientDirectoryServer.on_PUT get_room auth₂ ra ⟨some rid, servers⟩ := by
  intro h
  constructor
  · simp [ClientDirectoryServer.on_PUT, h]
  · simp [ClientDirectoryServer.on_PUT, h]

/-- Witness for C8 at a concrete input: the authentication outcome is a
failure, yet the result is the room-existence error. -/
theorem C8_room_check_precedes_auth_witness :
    ClientDirectoryServer.on_PUT (fun _ => none)
        (Except.error (AuthError 401 "Unrecognised access token"))
        "#a:hs" ⟨some "!r:hs", none⟩ =
      Except.error (SynapseError.mk' 400 "Room does not exist") :=
  (C8_room_check_precedes_auth (fun _ => none)
    (Except.error (AuthError 401 "Unrecognised access token"))
    (Except.ok ⟨"@u:hs", none⟩) "#a:hs" "!r:hs" none rfl).1

/-- C9: an alias PUT whose body lacks `room_id` fails with 400
`BAD_JSON` for every room store and every authentication outcome:
neither is consulted. -/
theorem C9_missing_room_id_bad_json
    (get_room : String → Option Room)
    (auth : Except SynapseError Requester)
    (ra : String) (servers : Option (List String)) :
    ClientDirectoryServer.on_PUT get_room auth ra ⟨none, servers⟩ =
      Except.error ⟨400, "Missing params: [\"room_id\"]", ErrCode.BAD_JSON⟩ :=
  rfl

/-- C10: on both list-edit servlets, a PUT body omitting `visibility`
performs the edit with `"public"`, and DELETE goes through the same edit
operation with `"private"` (for the global list it equals a PUT with
body `visibility = "private"`). -/
theorem C10_list_edit_defaults
    (user_auth : Except SynapseError Requester) (admin : String → Bool)
    (net rid : String) (req : Requester) :
    (user_auth = Except.ok req →
      ClientDirectoryListServer.on_PUT user_auth rid ⟨none⟩ =
        Except.ok (200, DirEffect.editPublishedRoomList req rid "public")) ∧
    (ClientDirectoryListServer.on_DELETE user_auth rid =
      ClientDirectoryListServer.on_PUT user_auth rid ⟨some "private"⟩) ∧
    (user_auth = Except.ok req →
      ClientDirectoryListServer.on_DELETE user_auth rid =
        Except.ok (200, DirEffect.editPublishedRoomList req rid "private")) ∧
    (ClientAppserviceDirectoryListServer.on_PUT user_auth admin net rid ⟨none⟩ =
      edit_appservice_room_visibility user_auth admin net rid "public") ∧
    (ClientAppserviceDirectoryListServer.on_DELETE user_auth admin net rid =
      edit_appservice_room_visibility user_auth admin net rid "private") := by
  refine ⟨?_, rfl, ?_, rfl, rfl⟩
  · intro h
    simp [ClientDirectoryListServer.on_PUT, h]
  · intro h
    simp [ClientDirectoryListServer.on_DELETE, h]

/-- Witness for C10 at concrete inputs. -/
theorem C10_list_edit_defaults_witness :
    ClientDirectoryListServer.on_PUT (Except.ok ⟨"@u:hs", none⟩) "!r:hs" ⟨none⟩ =
      Except.ok (200,
        DirEffect.editPublishedRoomList ⟨"@u:hs", none⟩ "!r:hs" "public") ∧
    ClientDirectoryListServer.on_DELETE (Except.ok ⟨"@u:hs", none⟩) "!r:hs" =
      Except.ok (200,
        DirEffect.editPublishedRoomList ⟨"@u:hs", none⟩ "!r:hs" "private") :=
  ⟨(C10_list_edit_defaults (Except.ok ⟨"@u:hs", none⟩) (fun _ => false)
      "net" "!r:hs" ⟨"@u:hs", none⟩).1 rfl,
   (C10_list_edit_defaults (Except.ok ⟨"@u:hs", none⟩) (fun _ => false)
      "net" "!r:hs" ⟨"@u:hs", none⟩).2.2.1 rfl⟩

/-! ## Theorems about the account-validity configuration loader -/

/-- When every element of the configured sequence is a mapping, the
module-list branch loads each element through the module loader, in
order, with its positional config path. -/
theorem load_module_list_map_vdict {α : Type}
    (lm : List (String × CVal) → List String → α) :
    ∀ (ds : List (List (String × CVal))) (i : Nat),
      load_module_list lm (ds.map CVal.vdict) i =
        Except.ok (ds.mapIdx fun j d => lm d (itemPath (i + j))) := by
  intro ds
  induction ds with
  | nil => intro i; rfl
  | cons d rest ih =>
      intro i
      have harg : (fun j (x : List (String × CVal)) =>
          lm x (itemPath (i + 1 + j))) =
          fun j x => lm x (itemPath (i + (j + 1))) := by
        funext j x
        have h : i + 1 + j = i + (j + 1) := by omega
        rw [h]
      simp only [List.map_cons, load_module_list, ih (i + 1), harg, Except.map,
        List.mapIdx_cons, Nat.add_zero]

/-- If some element of the configured sequence is not a mapping, the
module-list branch fails with `ConfigError "expected a mapping"`. -/
theorem load_module_list_err {α : Type}
    (lm : List (String × CVal) → List String → α) :
    ∀ (xs : List CVal) (i : Nat), (∃ x ∈ xs, x.isDict = false) →
      ∃ p, load_module_list lm xs i =
        Except.error ⟨"expected a mapping", some p⟩ := by
  intro xs
  induction xs with
  | nil =>
      intro i h
      rcases h with ⟨x, hx, _⟩
      exact absurd hx (List.not_mem_nil x)
  | cons x rest ih =>
      intro i h
      rcases h with ⟨y, hy, hnd⟩
      rcases List.mem_cons.mp hy with h1 | h1
      · subst h1
        cases y with
        | vdict d => simp [CVal.isDict] at hnd
        | vnull => exact ⟨itemPath i, rfl⟩
        | vbool b => exact ⟨itemPath i, rfl⟩
        | vint n => exact ⟨itemPath i, rfl⟩
        | vstr s => exact ⟨itemPath i, rfl⟩
        | vlist l => exact ⟨itemPath i, rfl⟩
      · cases x with
        | vdict d =>
            rcases ih (i + 1) ⟨y, h1, hnd⟩ with ⟨p, hp⟩
            refine ⟨p, ?_⟩
            simp [load_module_list, hp, Except.map]
        | vnull => exact ⟨itemPath i, rfl⟩
        | vbool b => exact ⟨itemPath i, rfl⟩
        | vint n => exact ⟨itemPath i, rfl⟩
        | vstr s => exact ⟨itemPath i, rfl⟩
        | vlist l => exact ⟨itemPath i, rfl⟩

/-- A successful legacy read leaves the module list empty. -/
theorem read_legacy_config_modules_nil {α : Type} (pd : CVal → Int)
    (url : Option String) (cfg : List (String × CVal))
    (st : AccountValidityState α)
    (h : read_legacy_config pd url cfg = Except.ok st) :
    st.account_validity_modules = [] := by
  unfold read_legacy_config at h
  split at h
  · exact Except.noConfusion h
  · split at h
    · exact Except.noConfusion h
    · injection h with h'
      rw [← h']

/-- C3: `read_config` dispatches on the runtime shape of
`account_validity`: absent gives the initial state (no modules, legacy
disabled); a mapping is read as the legacy configuration, whose module
list stays empty; a sequence of mappings is loaded through the module
loader in order (preserving length and order, with positional config
paths); a sequence containing a non-mapping fails with
`"expected a mapping"`; any other shape fails with
`"account_validity syntax is incorrect"`. -/
theorem C3_account_validity_shape_dispatch {α : Type}
    (lm : List (String × CVal) → List String → α)
    (pd : CVal → Int) (url : Option String) :
    (read_config lm pd url none = Except.ok (initialState α)) ∧
    (∀ d, read_config lm pd url (some (CVal.vdict d)) =
      read_legacy_config pd url d) ∧
    (∀ d st, read_legacy_config (α := α) pd url d = Except.ok st →
      st.account_validity_modules = []) ∧
    (∀ ds : List (List (String × CVal)),
      read_config lm pd url (some (CVal.vlist (ds.map CVal.vdict))) =
        Except.ok { initialState α with
          account_validity_modules := ds.mapIdx fun i d => lm d (itemPath i) } ∧
      (ds.mapIdx fun i d => lm d (itemPath i)).length = ds.length) ∧
    (∀ xs : List CVal, (∃ x ∈ xs, x.isDict = false) →
      ∃ p, read_config lm pd url (some (CVal.vlist xs)) =
        Except.error ⟨"expected a mapping", some p⟩) ∧
    (∀ v : CVal, v.isDict = false → v.isList = false →
      read_config lm pd url (some v) =
        Except.error ⟨"account_validity syntax is incorrect", none⟩) := by
  refine ⟨rfl, fun d => rfl,
    fun d st h => read_legacy_config_modules_nil pd url d st h, ?_, ?_, ?_⟩
  · intro ds
    constructor
    · simp only [read_config, load_module_list_map_vdict lm ds 0]
      simp [Except.map, Nat.zero_add]
    · exact List.length_mapIdx
  · intro xs hx
    rcases load_module_list_err lm xs 0 hx with ⟨p, hp⟩
    refine ⟨p, ?_⟩
    simp [read_config, hp, Except.map]
  · intro v h1 h2
    cases v with
    | vdict d => simp [CVal.isDict] at h1
    | vlist xs => simp [CVal.isList] at h2
    | vnull => rfl
    | vbool b => rfl
    | vint n => rfl
    | vstr s => rfl

/-- Witness for C3 at concrete inputs: a one-element module list, a
sequence with a non-mapping element, and a string-shaped value. -/
theorem C3_account_validity_shape_dispatch_witness :
    read_config (fun (d : List (String × CVal)) (p : List String) => (d, p))
        (fun _ => 0) none
        (some (CVal.vlist [CVal.vdict [("module", CVal.vstr "m")]])) =
      Except.ok { initialState (List (String × CVal) × List String) with
        account_validity_modules :=
          [([("module", CVal.vstr "m")], itemPath 0)] } ∧
    (∃ p, read_config
        (fun (d : List (String × CVal)) (p : List String) => (d, p))
        (fun _ => 0) none (some (CVal.vlist [CVal.vint 3])) =
      Except.error ⟨"expected a mapping", some p⟩) ∧
    read_config (fun (d : List (String × CVal)) (p : List String) => (d, p))
        (fun _ => 0) none (some (CVal.vstr "oops")) =
      Except.error ⟨"account_validity syntax is incorrect", none⟩ := by
  refine ⟨?_, ?_, ?_⟩
  · have h := (C3_account_validity_shape_dispatch
      (fun (d : List (String × CVal)) (p : List String) => (d, p))
      (fun _ => 0) none).2.2.2.1 [[("module", CVal.vstr "m")]]
    simpa using h.1
  · exact (C3_account_validity_shape_dispatch
      (fun (d : List (String × CVal)) (p : List String) => (d, p))
      (fun _ => 0) none).2.2.2.2.1 [CVal.vint 3]
      ⟨CVal.vint 3, by simp, rfl⟩
  · exact (C3_account_validity_shape_dispatch
      (fun (d : List (String × CVal)) (p : List String) => (d, p))
      (fun _ => 0) none).2.2.2.2.2 (CVal.vstr "oops") rfl rfl

/-- C6 counterexample: with `enabled: true`, `renew_at` present,
`period` absent and no public base URL, the legacy read fails with the
`period` ConfigError, not with the renewal-email ConfigError the claim
names — the `period` check runs first. -/
theorem C6_counterexample :
    containsKey [("enabled", CVal.vbool true), ("renew_at", CVal.vint 1)]
        "renew_at" = true ∧
    ((none : Option String).getD "") = "" ∧
    read_legacy_config (α := Unit) (fun _ => 0) none
        [("enabled", CVal.vbool true), ("renew_at", CVal.vint 1)] =
      Except.error
        ⟨"\x27period\x27 is required when using account validity", none⟩ ∧
    read_legacy_config (α := Unit) (fun _ => 0) none
        [("enabled", CVal.vbool true), ("renew_at", CVal.vint 1)] ≠
      Except.error
        ⟨"Can\x27t send renewal emails without \x27public_baseurl\x27", none⟩ := by
  refine ⟨rfl, rfl, rfl, ?_⟩
  intro h
  have h4 : (Except.error
      (⟨"\x27period\x27 is required when using account validity", none⟩ :
        ConfigError) : Except ConfigError (AccountValidityState Unit)) =
      Except.error
        ⟨"Can\x27t send renewal emails without \x27public_baseurl\x27", none⟩ :=
    (rfl : read_legacy_config (α := Unit) (fun _ => 0) none
      [("enabled", CVal.vbool true), ("renew_at", CVal.vint 1)] =
        Except.error _).symm.trans h
  injection h4 with h5
  exact absurd h5 (by decide)

/-- C6 (amended): whenever `renew_at` is present and the public base URL
is falsy, the legacy read fails at startup with a ConfigError regardless
of `enabled`; the error is the renewal-email one, except when `enabled`
is truthy and `period` is absent, in which case the `period` ConfigError
is raised first. -/
theorem C6_renewal_email_requires_baseurl {α : Type} (pd : CVal → Int)
    (url : Option String) (cfg : List (String × CVal)) :
    containsKey cfg "renew_at" = true → (url.getD "") = "" →
    (∃ e, read_legacy_config (α := α) pd url cfg = Except.error e) ∧
    ((((lookupKey cfg "enabled").getD (CVal.vbool false)).truthy = true →
      lookupKey cfg "period" = none →
      read_legacy_config (α := α) pd url cfg =
        Except.error
          ⟨"\x27period\x27 is required when using account validity", none⟩)) ∧
    ((((lookupKey cfg "enabled").getD (CVal.vbool false)).truthy = true ∧
        lookupKey cfg "period" = none → False) →
      read_legacy_config (α := α) pd url cfg =
        Except.error
          ⟨"Can\x27t send renewal emails without \x27public_baseurl\x27",
            none⟩) := by
  intro hr hu
  have hblock : ∀ x : Option Int × Option Int × Option CVal × Option Rat,
      legacy_enabled_block pd cfg = Except.ok x →
      read_legacy_config (α := α) pd url cfg =
        Except.error
          ⟨"Can\x27t send renewal emails without \x27public_baseurl\x27",
            none⟩ := by
    rintro ⟨p, r, s, dl⟩ hx
    simp [read_legacy_config, hx, hr, hu]
  have hperiod :
      (((lookupKey cfg "enabled").getD (CVal.vbool false)).truthy = true →
      lookupKey cfg "period" = none →
      read_legacy_config (α := α) pd url cfg =
        Except.error
          ⟨"\x27period\x27 is required when using account validity", none⟩) := by
    intro h1 h2
    simp [read_legacy_config, legacy_enabled_block, h1, h2]
  have hrenew :
      ((((lookupKey cfg "enabled").getD (CVal.vbool false)).truthy = true ∧
        lookupKey cfg "period" = none → False) →
      read_legacy_config (α := α) pd url cfg =
        Except.error
          ⟨"Can\x27t send renewal emails without \x27public_baseurl\x27",
            none⟩) := by
    intro hn
    cases htr : (((lookupKey cfg "enabled").getD (CVal.vbool false)).truthy) with
    | false =>
        have hb : legacy_enabled_block pd cfg =
            Except.ok (none, none, none, none) := by
          simp [legacy_enabled_block, htr]
        exact hblock _ hb
    | true =>
        cases hp : lookupKey cfg "period" with
        | none => exact absurd ⟨htr, hp⟩ hn
        | some p =>
            have hb : legacy_enabled_block pd cfg =
                Except.ok (some (pd p),
                  (lookupKey cfg "renew_at").map pd,
                  some ((lookupKey cfg "renew_email_subject").getD
                    (CVal.vstr "Renew your %(app)s account")),
                  some ((pd p : Rat) * 10 / 100)) := by
              simp [legacy_enabled_block, htr, hp]
            exact hblock _ hb
  refine ⟨?_, hperiod, hrenew⟩
  by_cases hc : (((lookupKey cfg "enabled").getD (CVal.vbool false)).truthy =
      true ∧ lookupKey cfg "period" = none)
  · exact ⟨_, hperiod hc.1 hc.2⟩
  · exact ⟨_, hrenew hc⟩

/-- Witness for the amended C6: `renew_at` present, `enabled` absent
(falsy), no base URL — the renewal-email ConfigError is raised. -/
theorem C6_renewal_email_requires_baseurl_witness :
    read_legacy_config (α := Unit) (fun _ => 0) none
        [("renew_at", CVal.vint 1)] =
      Except.error
        ⟨"Can\x27t send renewal emails without \x27public_baseurl\x27",
          none⟩ :=
  (C6_renewal_email_requires_baseurl (α := Unit) (fun _ => 0) none
    [("renew_at", CVal.vint 1)] rfl rfl).2.2
    (fun hc => Bool.false_ne_true (show false = true from hc.1))

/-- C7: with `enabled` truthy and `period` absent the legacy read fails
with the `period` ConfigError; with `enabled` falsy (false or absent),
no such error is raised (any error is a different message) and the
period attribute is never set. -/
theorem C7_period_required {α : Type} (pd : CVal → Int) (url : Option String)
    (cfg : List (String × CVal)) :
    ((((lookupKey cfg "enabled").getD (CVal.vbool false)).truthy = true →
      lookupKey cfg "period" = none →
      read_legacy_config (α := α) pd url cfg =
        Except.error
          ⟨"\x27period\x27 is required when using account validity", none⟩)) ∧
    ((((lookupKey cfg "enabled").getD (CVal.vbool false)).truthy = false →
      (∀ e, read_legacy_config (α := α) pd url cfg = Except.error e →
        e.msg ≠ "\x27period\x27 is required when using account validity") ∧
      (∀ st, read_legacy_config (α := α) pd url cfg = Except.ok st →
        st.account_validity_period = none))) := by
  constructor
  · intro h1 h2
    simp [read_legacy_config, legacy_enabled_block, h1, h2]
  · intro h1
    have hb : legacy_enabled_block pd cfg =
        Except.ok (none, none, none, none) := by
      simp [legacy_enabled_block, h1]
    constructor
    · intro e he
      simp only [read_legacy_config, hb] at he
      split at he
      · injection he with h'
        rw [← h']
        decide
      · exact Except.noConfusion he
    · intro st hst
      simp only [read_legacy_config, hb] at hst
      split at hst
      · exact Except.noConfusion hst
      · injection hst with h'
        rw [← h']

/-- Witness for C7: `enabled: true` without `period` errors; the empty
legacy mapping loads with no period set. -/
theorem C7_period_required_witness :
    read_legacy_config (α := Unit) (fun _ => 0) none
        [("enabled", CVal.vbool true)] =
      Except.error
        ⟨"\x27period\x27 is required when using account validity", none⟩ ∧
    (initialState Unit).account_validity_period = none :=
  ⟨(C7_period_required (α := Unit) (fun _ => 0) none
      [("enabled", CVal.vbool true)]).1 rfl rfl,
   ((C7_period_required (α := Unit) (fun _ => 0) none []).2 rfl).2
      (initialState Unit) rfl⟩

end Synapse
